import Mathlib

/-!
Shallow embedding of the pgWrapper library (pg_wrapper.h / pg_wrapper.cpp).

The C++ wrapper sits atop libpqxx.  Here the pqxx layer is modelled as an
oracle: every backend interaction (statement execution, work commit, work
abort, connection construction) is passed in as an explicit argument of
`Except`/outcome type, and the wrapper's own control flow — its guards,
its exception wrapping, its bookkeeping — is translated line by line from
the source.  Thrown C++ exceptions become `Except Err` results; the
wrapper's exception classes and the standard-library exceptions it uses
are the constructors of `Err`, with the class hierarchy (ConnectionError
and QueryError derive from DatabaseError, DatabaseError from
std::runtime_error) captured by the `Err.is_database_error` predicate.
`size_t` arithmetic wraps modulo 2^64, made explicit where a decrement
can underflow.
-/

/-- Decidable equality for `Except`, needed to evaluate concrete runs. -/
instance {ε α : Type} [DecidableEq ε] [DecidableEq α] :
    DecidableEq (Except ε α) := fun a b =>
  match a, b with
  | .ok x, .ok y =>
    if h : x = y then isTrue (by rw [h])
    else isFalse (fun hEq => h (by cases hEq; rfl))
  | .error x, .error y =>
    if h : x = y then isTrue (by rw [h])
    else isFalse (fun hEq => h (by cases hEq; rfl))
  | .ok _, .error _ => isFalse (fun hEq => Except.noConfusion hEq)
  | .error _, .ok _ => isFalse (fun hEq => Except.noConfusion hEq)

namespace PgWrapper

/-- Modulus of `size_t` arithmetic (64-bit platform). -/
def SIZE_T_MOD : Nat := 2 ^ 64

/-- Wrapping `size_t` increment, as `++_currentConnections` in the source. -/
def add1Wrap (n : Nat) : Nat := (n + 1) % SIZE_T_MOD

/-- Wrapping `size_t` decrement, as `--_currentConnections` in the source. -/
def sub1Wrap (n : Nat) : Nat := (n + (SIZE_T_MOD - 1)) % SIZE_T_MOD

/-- Conversion of a C++ `int` to `size_t`, as happens implicitly in the
comparisons `col >= _row.size()` and `col < _row.size()`: a negative
`int` wraps to a huge unsigned value. -/
def intToSizeT (i : Int) : Nat := (i.emod (2 ^ 64)).toNat

/-- Exception kinds observable from the wrapper.  The first three mirror
the wrapper's own classes; `runtimeError` is a plain `std::runtime_error`
thrown directly (not through a wrapper class); `outOfRange` is
`std::out_of_range`; `conversionError` is a pqxx conversion error
escaping `as<T>` uncaught; `backendError` is any other pqxx exception
escaping uncaught. -/
inductive Err
  | runtimeError (msg : String)
  | databaseError (msg : String)
  | connectionError (msg : String)
  | queryError (msg : String)
  | outOfRange (msg : String)
  | conversionError (msg : String)
  | backendError (msg : String)
deriving DecidableEq

/-- Whether an exception would be caught by `catch (const DatabaseError&)`:
true exactly for DatabaseError and its subclasses ConnectionError and
QueryError.  A plain `std::runtime_error` is the base class of
DatabaseError, not a subclass, so it is not caught. -/
def Err.is_database_error : Err → Bool
  | .databaseError _ => true
  | .connectionError _ => true
  | .queryError _ => true
  | _ => false

/-- The `DatabaseError(msg)` constructor: stores `msg` unchanged. -/
def DatabaseError (msg : String) : Err := .databaseError msg

/-- The `ConnectionError(msg)` constructor: prefixes "Connection error: ". -/
def ConnectionError (msg : String) : Err :=
  .connectionError ("Connection error: " ++ msg)

/-- The `QueryError(msg)` constructor: prefixes "Query error: ". -/
def QueryError (msg : String) : Err := .queryError ("Query error: " ++ msg)

/-! ## Row

A `pqxx::row` is modelled as the list of its fields — each SQL NULL
(`none`) or a raw text representation (`some raw`) — together with the
column-name-to-index map.  The typed extraction `as<T>` is modelled by an
explicit parse function `String → Option α`; a parse failure corresponds
to the pqxx conversion error that `as<T>` throws, which `Row`'s methods
do not catch. -/

/-- A result row: fields (NULL or raw representation) and column names. -/
structure Row where
  fields : List (Option String)
  names : List (String × Nat)
deriving DecidableEq

/-- Number of columns, `Row::size`. -/
def Row.size (r : Row) : Nat := r.fields.length

/-- Field access `_row[col]` after a bounds guard has passed. -/
def Row.fieldAt (r : Row) (idx : Nat) : Option String :=
  r.fields.getD idx none

/-- Column-name lookup performed by `_row[colName]` inside pqxx. -/
def Row.lookupName (r : Row) (name : String) : Option Nat :=
  (r.names.find? (fun p => p.1 == name)).map Prod.snd

/-- The pqxx expression `_row[colName]`: yields the field, or throws a
pqxx error (uncaught by the wrapper) for an unknown column name. -/
def Row.fieldByName (r : Row) (name : String) : Except Err (Option String) :=
  match r.lookupName name with
  | some i => .ok (r.fieldAt i)
  | none => .error (.backendError ("Unknown column name: " ++ name))

/-- Typed extraction `field.as<T>()`: throws a pqxx conversion error on a
NULL field or an unparsable raw representation. -/
def fieldAs (parse : String → Option α) (f : Option String) : Except Err α :=
  match f with
  | none => .error (.conversionError "Attempt to convert null field")
  | some raw =>
    match parse raw with
    | some v => .ok v
    | none => .error (.conversionError ("Could not convert field: " ++ raw))

/-- `Row::get(int col)`: bounds guard throwing `std::out_of_range`, then
`_row[col].as<T>()`. -/
def Row.get (parse : String → Option α) (r : Row) (col : Int) : Except Err α :=
  if r.size ≤ intToSizeT col then
    .error (.outOfRange "Column index out of range")
  else
    fieldAs parse (r.fieldAt (intToSizeT col))

/-- `Row::get(const std::string&)`: `_row[colName].as<T>()`. -/
def Row.getByName (parse : String → Option α) (r : Row) (name : String) :
    Except Err α := do
  let f ← r.fieldByName name
  fieldAs parse f

/-- `Row::get_optional(int col)`: bounds guard throwing
`std::out_of_range`, then NULL test, then conversion. -/
def Row.get_optional (parse : String → Option α) (r : Row) (col : Int) :
    Except Err (Option α) :=
  if r.size ≤ intToSizeT col then
    .error (.outOfRange "Column index out of range")
  else
    match r.fieldAt (intToSizeT col) with
    | none => .ok none
    | some raw =>
      match parse raw with
      | some v => .ok (some v)
      | none => .error (.conversionError ("Could not convert field: " ++ raw))

/-- `Row::get_optional(const std::string&)`: fetch the field by name,
then NULL test, then conversion. -/
def Row.getOptionalByName (parse : String → Option α) (r : Row)
    (name : String) : Except Err (Option α) := do
  let f ← r.fieldByName name
  match f with
  | none => pure none
  | some raw =>
    match parse raw with
    | some v => pure (some v)
    | none => .error (.conversionError ("Could not convert field: " ++ raw))

/-- `Row::is_null(int col)`: `col < _row.size() && _row[col].is_null()` —
returns `false` (no exception) when the index is out of range. -/
def Row.is_null (r : Row) (col : Int) : Bool :=
  decide (intToSizeT col < r.size) && (r.fieldAt (intToSizeT col)).isNone

/-- `Row::is_null(const std::string&)`: `_row[colName].is_null()`; an
unknown name propagates the pqxx exception. -/
def Row.isNullByName (r : Row) (name : String) : Except Err Bool :=
  (r.fieldByName name).map Option.isNone

/-! ## Transaction

A `Transaction` owns a `pqxx::work` and the flag `_committed`.  The
backend work object is abstracted to the trace of calls made on it
(`calls`), so that theorems can state which statements were forwarded to
the backend and whether commit/abort were invoked.  Each operation takes
the backend's answer for the call it is about to make as an argument. -/

/-- A call made on the underlying `pqxx::work`. -/
inductive BCall
  | execB (sql : String)
  | execParamsB (sql : String)
  | execPreparedB (name : String)
  | commitW
  | abortW
deriving DecidableEq

/-- Result data carried by a successful statement: the rows. -/
abbrev ResultData := List Row

/-- Wrapper transaction state: the `_committed` flag and the trace of
calls made on the owned `pqxx::work`. -/
structure Transaction where
  committed : Bool
  calls : List BCall
deriving DecidableEq

/-- `Transaction::Transaction`: fresh work, `_committed = false`. -/
def Transaction.mkFresh : Transaction := ⟨false, []⟩

/-- Outcome of a backend statement execution: success with rows, a
`pqxx::sql_error`, or another `std::exception`. -/
inductive ExecOutcome
  | ok (r : ResultData)
  | sqlError (msg : String)
  | otherError (msg : String)
deriving DecidableEq

/-- Map a backend execution outcome the way the `try`/`catch` blocks of
`Transaction::exec` and friends do: `pqxx::sql_error` becomes
`QueryError`, any other exception becomes `DatabaseError`. -/
def mapExecOutcome : ExecOutcome → Except Err ResultData
  | .ok r => .ok r
  | .sqlError m => .error (QueryError m)
  | .otherError m => .error (DatabaseError m)

/-- `Transaction::exec`: forwards the statement to `_txn->exec`
unconditionally (there is no `_committed` guard), wrapping backend
exceptions. -/
def Transaction.exec (t : Transaction) (sql : String) (backend : ExecOutcome) :
    Except Err ResultData × Transaction :=
  (mapExecOutcome backend, { t with calls := t.calls ++ [.execB sql] })

/-- `Transaction::exec_params`: same wrapping as `exec`. -/
def Transaction.exec_params (t : Transaction) (sql : String)
    (backend : ExecOutcome) : Except Err ResultData × Transaction :=
  (mapExecOutcome backend, { t with calls := t.calls ++ [.execParamsB sql] })

/-- `Transaction::exec_prepared`: same wrapping as `exec`. -/
def Transaction.exec_prepared (t : Transaction) (name : String)
    (backend : ExecOutcome) : Except Err ResultData × Transaction :=
  (mapExecOutcome backend, { t with calls := t.calls ++ [.execPreparedB name] })

/-- `Transaction::commit`: if `_committed`, throw a plain
`std::runtime_error` before any backend contact; otherwise call
`_txn->commit()` and set `_committed = true` only on success — a backend
commit failure is rethrown as `DatabaseError` with `_committed` left
`false` (the assignment is skipped by the exception). -/
def Transaction.commit (t : Transaction) (backendCommit : Except String Unit) :
    Except Err Unit × Transaction :=
  if t.committed then
    (.error (.runtimeError "Transaction already committed"), t)
  else
    match backendCommit with
    | .ok _ =>
      (.ok (), { committed := true, calls := t.calls ++ [.commitW] })
    | .error m =>
      (.error (DatabaseError m), { t with calls := t.calls ++ [.commitW] })

/-- `Transaction::abort`: a no-op when `_committed` is already set;
otherwise call `_txn->abort()` (uncaught — a backend exception
propagates and skips the flag assignment) and mark `_committed = true`. -/
def Transaction.abort (t : Transaction) (backendAbort : Except String Unit) :
    Except Err Unit × Transaction :=
  if t.committed then
    (.ok (), t)
  else
    match backendAbort with
    | .ok _ =>
      (.ok (), { committed := true, calls := t.calls ++ [.abortW] })
    | .error m =>
      (.error (.backendError m), { t with calls := t.calls ++ [.abortW] })

/-- `Transaction::~Transaction`: if `_committed` is not set, call
`_txn->abort()` and swallow any exception it throws — the backend abort
outcome is ignored entirely, so it does not appear in the result. -/
def Transaction.destruct (t : Transaction)
    (_backendAbort : Except String Unit) : Transaction :=
  if t.committed then t
  else { t with calls := t.calls ++ [.abortW] }

/-! ## Database

For the pool, a `Database` is abstracted to its `is_open` observation;
for the auto-commit statement wrappers, `Database.exec` and friends
replay the source's control flow — begin a `Transaction`, execute,
commit, with the destructor running on every exit path — and report the
result together with the trace of backend calls the ephemeral
transaction made. -/

/-- A wrapper `Database` connection, abstracted to its liveness. -/
structure Database where
  is_open : Bool
deriving DecidableEq

/-- `Database::begin_transaction`: throws `ConnectionError` when the
connection is not open, otherwise yields a fresh open `Transaction`. -/
def Database.begin_transaction (db : Database) : Except Err Transaction :=
  if !db.is_open then .error (ConnectionError "Connection is not open")
  else .ok Transaction.mkFresh

/-- `Database::exec`: `auto txn = begin_transaction(); auto result =
txn.exec(sql); txn.commit(); return result;` — on any exception the
`Transaction` destructor runs during unwinding and the exception
propagates unchanged. -/
def Database.exec (db : Database) (sql : String) (backendExec : ExecOutcome)
    (backendCommit : Except String Unit) (backendAbort : Except String Unit) :
    Except Err ResultData × List BCall :=
  match db.begin_transaction with
  | .error e => (.error e, [])
  | .ok t0 =>
    let (r1, t1) := t0.exec sql backendExec
    match r1 with
    | .error e => (.error e, (t1.destruct backendAbort).calls)
    | .ok res =>
      let (r2, t2) := t1.commit backendCommit
      match r2 with
      | .error e => (.error e, (t2.destruct backendAbort).calls)
      | .ok _ => (.ok res, (t2.destruct backendAbort).calls)

/-- `Database::exec_params`: same commit-wrapped pattern as `exec`. -/
def Database.exec_params (db : Database) (sql : String)
    (backendExec : ExecOutcome) (backendCommit : Except String Unit)
    (backendAbort : Except String Unit) :
    Except Err ResultData × List BCall :=
  match db.begin_transaction with
  | .error e => (.error e, [])
  | .ok t0 =>
    let (r1, t1) := t0.exec_params sql backendExec
    match r1 with
    | .error e => (.error e, (t1.destruct backendAbort).calls)
    | .ok res =>
      let (r2, t2) := t1.commit backendCommit
      match r2 with
      | .error e => (.error e, (t2.destruct backendAbort).calls)
      | .ok _ => (.ok res, (t2.destruct backendAbort).calls)

/-- `Database::exec_prepared`: same commit-wrapped pattern as `exec`. -/
def Database.exec_prepared (db : Database) (name : String)
    (backendExec : ExecOutcome) (backendCommit : Except String Unit)
    (backendAbort : Except String Unit) :
    Except Err ResultData × List BCall :=
  match db.begin_transaction with
  | .error e => (.error e, [])
  | .ok t0 =>
    let (r1, t1) := t0.exec_prepared name backendExec
    match r1 with
    | .error e => (.error e, (t1.destruct backendAbort).calls)
    | .ok res =>
      let (r2, t2) := t1.commit backendCommit
      match r2 with
      | .error e => (.error e, (t2.destruct backendAbort).calls)
      | .ok _ => (.ok res, (t2.destruct backendAbort).calls)

/-! ## ConnectionPool

The pool state is the idle store `_pool`, the capacity
`_maxConnections` and the live counter `_currentConnections` (a
`size_t`, so its decrement wraps at zero).  `get_connection` takes the
outcome of the `Database` construction it may attempt; `return_connection`
takes the returned `unique_ptr` as an `Option Database`. -/

/-- Pool state: idle store, capacity, live counter. -/
structure ConnectionPool where
  pool : List Database
  maxConnections : Nat
  currentConnections : Nat
deriving DecidableEq

/-- `ConnectionPool::ConnectionPool`: empty idle store, zero live. -/
def ConnectionPool.mkFresh (maxConnections : Nat) : ConnectionPool :=
  ⟨[], maxConnections, 0⟩

/-- `ConnectionPool::get_connection`: pop the idle back if nonempty;
else, if below capacity, pre-increment the live counter and construct a
new `Database` (a construction failure propagates the `ConnectionError`
thrown by the `Database` constructor, with the increment already done);
else return `nullptr`. -/
def ConnectionPool.get_connection (s : ConnectionPool)
    (construct : Except String Database) :
    Except Err (Option Database) × ConnectionPool :=
  match s.pool.getLast? with
  | some c => (.ok (some c), { s with pool := s.pool.dropLast })
  | none =>
    if s.currentConnections < s.maxConnections then
      let s' := { s with currentConnections := add1Wrap s.currentConnections }
      match construct with
      | .ok db => (.ok (some db), s')
      | .error m => (.error (ConnectionError m), s')
    else
      (.ok none, s)

/-- `ConnectionPool::return_connection`: a null or closed connection is
dropped with a live-counter decrement; an open one is re-pooled when the
idle store is below capacity and otherwise dropped with a decrement. -/
def ConnectionPool.return_connection (s : ConnectionPool)
    (conn : Option Database) : ConnectionPool :=
  match conn with
  | none => { s with currentConnections := sub1Wrap s.currentConnections }
  | some c =>
    if !c.is_open then
      { s with currentConnections := sub1Wrap s.currentConnections }
    else if s.pool.length < s.maxConnections then
      { s with pool := s.pool ++ [c] }
    else
      { s with currentConnections := sub1Wrap s.currentConnections }

/-- One pool operation performed by some caller: a lease attempt (with
the construction outcome the backend would give) or the return of a
previously leased connection (in whatever liveness state it is by then). -/
inductive PoolOp
  | get (construct : Except String Database)
  | ret (conn : Option Database)
deriving DecidableEq

/-- Number of leases handed out by one `get_connection` outcome: one when
the caller actually received a connection, zero on `nullptr` or a thrown
construction error. -/
def leaseDelta : Except Err (Option Database) → Nat
  | .ok (some _) => 1
  | _ => 0

/-- Run a sequence of pool operations, tracking as a ghost the number of
outstanding leases (calls that actually received a connection and have
not yet returned one).  A trace is well-formed only when every `ret`
returns an outstanding lease: `none` marks an ill-formed trace. -/
def runPool : ConnectionPool → Nat → List PoolOp → Option (ConnectionPool × Nat)
  | s, leases, [] => some (s, leases)
  | s, leases, PoolOp.get c :: ops =>
    runPool (s.get_connection c).2
      (leases + leaseDelta (s.get_connection c).1) ops
  | s, leases, PoolOp.ret conn :: ops =>
    if leases = 0 then none
    else runPool (s.return_connection conn) (leases - 1) ops

/-- Invariant tied to a pool of capacity `N`: the capacity field is `N`,
the idle store size plus the outstanding leases never exceed the live
counter, and the live counter never exceeds `N`. -/
def PoolInv (N : Nat) (s : ConnectionPool) (leases : Nat) : Prop :=
  s.maxConnections = N ∧
    s.pool.length + leases ≤ s.currentConnections ∧
    s.currentConnections ≤ N

/-! ## Helper lemmas -/

/-- Wrapping `size_t` decrement of a positive in-range value is the
ordinary decrement. -/
theorem sub1Wrap_of_pos {c : Nat} (h1 : 0 < c) (h2 : c < SIZE_T_MOD) :
    sub1Wrap c = c - 1 := by
  unfold sub1Wrap SIZE_T_MOD at *
  have h3 : c + (2 ^ 64 - 1) = (c - 1) + 2 ^ 64 := by omega
  rw [h3, Nat.add_mod_right, Nat.mod_eq_of_lt (by omega)]

/-- Wrapping `size_t` increment below the modulus is the ordinary
increment. -/
theorem add1Wrap_of_lt {c : Nat} (h : c + 1 < SIZE_T_MOD) :
    add1Wrap c = c + 1 := Nat.mod_eq_of_lt h

/-! ## Claims about Row -/

/-- Claim C7: for every row and every valid column reference (an
in-range index or a known column name), `is_null` returns true exactly
when `get_optional` returns an empty optional. -/
theorem c7_is_null_iff_get_optional_empty {α : Type} (r : Row)
    (parse : String → Option α) :
    (∀ col : Int, intToSizeT col < r.size →
      (r.is_null col = true ↔ r.get_optional parse col = .ok none)) ∧
    (∀ (name : String) (i : Nat), r.lookupName name = some i →
      (r.isNullByName name = .ok true ↔
        r.getOptionalByName parse name = .ok none)) := by
  constructor
  · intro col hcol
    unfold Row.is_null Row.get_optional
    rw [if_neg (by omega), decide_eq_true hcol, Bool.true_and]
    cases hf : r.fieldAt (intToSizeT col) with
    | none => simp
    | some raw =>
      cases hp : parse raw <;> simp [hp]
  · intro name i hlook
    unfold Row.isNullByName Row.getOptionalByName Row.fieldByName
    rw [hlook]
    cases hf : r.fieldAt i with
    | none => simp [Except.map, Bind.bind, Except.bind, pure, Except.pure, hf]
    | some raw =>
      cases hp : parse raw <;>
        simp [Except.map, Bind.bind, Except.bind, pure, Except.pure, hf, hp]

/-- Claim C7 witness: a concrete row with a NULL first column and a
non-NULL second column, checked by index and by name. -/
theorem c7_witness :
    (Row.is_null ⟨[none, some "5"], [("age", 0), ("id", 1)]⟩ 0 = true ↔
      Row.get_optional String.toNat? ⟨[none, some "5"], [("age", 0), ("id", 1)]⟩ 0
        = .ok none) ∧
    (Row.isNullByName ⟨[none, some "5"], [("age", 0), ("id", 1)]⟩ "age"
        = .ok true ↔
      Row.getOptionalByName String.toNat?
          ⟨[none, some "5"], [("age", 0), ("id", 1)]⟩ "age" = .ok none) :=
  ⟨(c7_is_null_iff_get_optional_empty
      ⟨[none, some "5"], [("age", 0), ("id", 1)]⟩ String.toNat?).1 0 (by decide),
   (c7_is_null_iff_get_optional_empty
      ⟨[none, some "5"], [("age", 0), ("id", 1)]⟩ String.toNat?).2 "age" 0
        (by decide)⟩

/-- Claim C8: on an out-of-range column index, `is_null` returns `false`
without raising, while `get` and `get_optional` fail with the
out-of-range error. -/
theorem c8_out_of_range_index {α : Type} (r : Row) (parse : String → Option α)
    (col : Int) (h : r.size ≤ intToSizeT col) :
    r.is_null col = false ∧
    r.get parse col = .error (.outOfRange "Column index out of range") ∧
    r.get_optional parse col = .error (.outOfRange "Column index out of range") := by
  refine ⟨?_, ?_, ?_⟩
  · unfold Row.is_null
    have hnot : ¬ intToSizeT col < r.size := Nat.not_lt.2 h
    simp [hnot]
  · unfold Row.get
    rw [if_pos h]
  · unfold Row.get_optional
    rw [if_pos h]

/-- Claim C8 witness: a one-column row probed at index 5. -/
theorem c8_witness :
    Row.is_null ⟨[some "1"], [("id", 0)]⟩ 5 = false ∧
    Row.get String.toNat? ⟨[some "1"], [("id", 0)]⟩ 5
        = .error (.outOfRange "Column index out of range") ∧
    Row.get_optional String.toNat? ⟨[some "1"], [("id", 0)]⟩ 5
        = .error (.outOfRange "Column index out of range") :=
  c8_out_of_range_index ⟨[some "1"], [("id", 0)]⟩ String.toNat? 5 (by decide)

/-! ## Claims about Transaction -/

/-- Claim C1 counterexample: on an open transaction whose backend commit
fails, `commit` raises `DatabaseError` but the `_committed` flag stays
`false`, and a second `commit` call is accepted and succeeds — the
transaction is not left terminal. -/
theorem c1_counterexample :
    (Transaction.commit ⟨false, []⟩ (.error "server closed the connection")).1
        = .error (DatabaseError "server closed the connection") ∧
    ((Transaction.commit ⟨false, []⟩
        (.error "server closed the connection")).2).committed = false ∧
    (((Transaction.commit ⟨false, []⟩
        (.error "server closed the connection")).2).commit (.ok ())).1
        = .ok () := by
  decide

/-- Claim C1 as amended: when the backend commit fails, `commit` raises
`DatabaseError` but `_committed` remains `false`, so the transaction
stays in the Open state and later operations are not blocked: a retried
`commit` reaches the backend again (and succeeds if the backend does),
and `exec` still forwards statements. -/
theorem c1_amended_failed_commit_stays_open (t : Transaction)
    (m sql : String) (res : ResultData) (h : t.committed = false) :
    (t.commit (.error m)).1 = .error (DatabaseError m) ∧
    (t.commit (.error m)).2.committed = false ∧
    ((t.commit (.error m)).2.commit (.ok ())).1 = .ok () ∧
    ((t.commit (.error m)).2.exec sql (.ok res)).1 = .ok res := by
  unfold Transaction.commit Transaction.exec mapExecOutcome
  simp [h]

/-- Claim C1 amended witness: concrete failed commit then retried commit. -/
theorem c1_amended_witness :
    (Transaction.commit ⟨false, []⟩ (.error "x")).1
        = .error (DatabaseError "x") ∧
    (Transaction.commit ⟨false, []⟩ (.error "x")).2.committed = false ∧
    ((Transaction.commit ⟨false, []⟩ (.error "x")).2.commit (.ok ())).1
        = .ok () ∧
    ((Transaction.commit ⟨false, []⟩ (.error "x")).2.exec "SELECT 1"
        (.ok [])).1 = .ok [] :=
  c1_amended_failed_commit_stays_open ⟨false, []⟩ "x" "SELECT 1" [] rfl

/-- Claim C3 counterexample: `exec` on a committed transaction performs
no use-after-terminal check — the statement is forwarded to the backend
and, when the backend accepts it, succeeds. -/
theorem c3_counterexample :
    (Transaction.exec ⟨true, [BCall.commitW]⟩ "SELECT 1" (.ok [])).1
        = .ok [] ∧
    (Transaction.exec ⟨true, [BCall.commitW]⟩ "SELECT 1" (.ok [])).2.calls
        = [BCall.commitW, BCall.execB "SELECT 1"] := by
  decide

/-- Claim C3 as amended: on a terminal transaction, `exec`, `exec_params`
and `exec_prepared` are forwarded to the backend work object without any
wrapper-level terminality check; the outcome is exactly the wrapped
backend outcome (`QueryError`/`DatabaseError` on backend failure), never
a wrapper-generated use-after-terminal error. -/
theorem c3_amended_no_terminality_check (t : Transaction)
    (sql name : String) (b : ExecOutcome) (_h : t.committed = true) :
    (t.exec sql b).1 = mapExecOutcome b ∧
    (t.exec sql b).2.calls = t.calls ++ [BCall.execB sql] ∧
    (t.exec_params sql b).1 = mapExecOutcome b ∧
    (t.exec_params sql b).2.calls = t.calls ++ [BCall.execParamsB sql] ∧
    (t.exec_prepared name b).1 = mapExecOutcome b ∧
    (t.exec_prepared name b).2.calls = t.calls ++ [BCall.execPreparedB name] := by
  unfold Transaction.exec Transaction.exec_params Transaction.exec_prepared
  exact ⟨rfl, rfl, rfl, rfl, rfl, rfl⟩

/-- Claim C3 amended witness: concrete committed transaction. -/
theorem c3_amended_witness :
    (Transaction.exec ⟨true, []⟩ "S" (.sqlError "boom")).1
        = mapExecOutcome (.sqlError "boom") ∧
    (Transaction.exec ⟨true, []⟩ "S" (.sqlError "boom")).2.calls
        = [] ++ [BCall.execB "S"] ∧
    (Transaction.exec_params ⟨true, []⟩ "S" (.sqlError "boom")).1
        = mapExecOutcome (.sqlError "boom") ∧
    (Transaction.exec_params ⟨true, []⟩ "S" (.sqlError "boom")).2.calls
        = [] ++ [BCall.execParamsB "S"] ∧
    (Transaction.exec_prepared ⟨true, []⟩ "P" (.sqlError "boom")).1
        = mapExecOutcome (.sqlError "boom") ∧
    (Transaction.exec_prepared ⟨true, []⟩ "P" (.sqlError "boom")).2.calls
        = [] ++ [BCall.execPreparedB "P"] :=
  c3_amended_no_terminality_check ⟨true, []⟩ "S" "P" (.sqlError "boom") rfl

/-- Claim C4 counterexample: the error raised by a second `commit` after
a successful one is a plain `std::runtime_error`, which is the base
class of `DatabaseError`, not a member of the `DatabaseError` taxonomy —
a `catch (const DatabaseError&)` would not catch it. -/
theorem c4_counterexample :
    ((Transaction.commit (Transaction.commit ⟨false, []⟩ (.ok ())).2
        (.ok ())).1 = .error (Err.runtimeError "Transaction already committed")) ∧
    (Err.runtimeError "Transaction already committed").is_database_error
        = false := by
  decide

/-- Claim C4 as amended: a second `commit` after a successful `commit`
fails with the plain runtime error "Transaction already committed",
which lies outside the `DatabaseError` hierarchy, raised without
contacting the backend; `abort` called twice raises no exception on
either call (when the backend rollback of the first succeeds) and the
second call is a complete no-op. -/
theorem c4_amended_double_commit_and_double_abort (t : Transaction)
    (bc ba : Except String Unit) (h : t.committed = false) :
    ((t.commit (.ok ())).1 = .ok ()) ∧
    (((t.commit (.ok ())).2.commit bc).1
        = .error (.runtimeError "Transaction already committed")) ∧
    (((t.commit (.ok ())).2.commit bc).2 = (t.commit (.ok ())).2) ∧
    ((Err.runtimeError "Transaction already committed").is_database_error
        = false) ∧
    ((t.abort (.ok ())).1 = .ok ()) ∧
    (((t.abort (.ok ())).2.abort ba).1 = .ok ()) ∧
    (((t.abort (.ok ())).2.abort ba).2 = (t.abort (.ok ())).2) := by
  unfold Transaction.commit Transaction.abort
  simp [h, Err.is_database_error]

/-- Claim C4 amended witness: concrete double commit and double abort. -/
theorem c4_amended_witness :
    ((Transaction.commit ⟨false, []⟩ (.ok ())).1 = .ok ()) ∧
    (((Transaction.commit ⟨false, []⟩ (.ok ())).2.commit (.ok ())).1
        = .error (.runtimeError "Transaction already committed")) ∧
    (((Transaction.commit ⟨false, []⟩ (.ok ())).2.commit (.ok ())).2
        = (Transaction.commit ⟨false, []⟩ (.ok ())).2) ∧
    ((Err.runtimeError "Transaction already committed").is_database_error
        = false) ∧
    ((Transaction.abort ⟨false, []⟩ (.ok ())).1 = .ok ()) ∧
    (((Transaction.abort ⟨false, []⟩ (.ok ())).2.abort (.ok ())).1
        = .ok ()) ∧
    (((Transaction.abort ⟨false, []⟩ (.ok ())).2.abort (.ok ())).2
        = (Transaction.abort ⟨false, []⟩ (.ok ())).2) :=
  c4_amended_double_commit_and_double_abort ⟨false, []⟩ (.ok ()) (.ok ()) rfl

/-- Claim C10: the single `_committed` flag merges the two terminal
states — `abort` after a successful `commit` is a silent no-op (no
backend call, no exception, state unchanged), and `commit` after `abort`
fails with exactly the double-commit error "Transaction already
committed" without contacting the backend. -/
theorem c10_flag_merges_committed_aborted (t : Transaction)
    (ba bc bc' : Except String Unit) (h : t.committed = false) :
    (((t.commit (.ok ())).2.abort ba).1 = .ok ()) ∧
    (((t.commit (.ok ())).2.abort ba).2 = (t.commit (.ok ())).2) ∧
    (((t.abort (.ok ())).2.commit bc).1
        = .error (.runtimeError "Transaction already committed")) ∧
    (((t.abort (.ok ())).2.commit bc).2 = (t.abort (.ok ())).2) ∧
    (((t.commit (.ok ())).2.commit bc').1
        = .error (.runtimeError "Transaction already committed")) := by
  unfold Transaction.commit Transaction.abort
  simp [h]

/-- Claim C10 witness: concrete commit-then-abort and abort-then-commit. -/
theorem c10_witness :
    (((Transaction.commit ⟨false, []⟩ (.ok ())).2.abort (.error "e")).1
        = .ok ()) ∧
    (((Transaction.commit ⟨false, []⟩ (.ok ())).2.abort (.error "e")).2
        = (Transaction.commit ⟨false, []⟩ (.ok ())).2) ∧
    (((Transaction.abort ⟨false, []⟩ (.ok ())).2.commit (.ok ())).1
        = .error (.runtimeError "Transaction already committed")) ∧
    (((Transaction.abort ⟨false, []⟩ (.ok ())).2.commit (.ok ())).2
        = (Transaction.abort ⟨false, []⟩ (.ok ())).2) ∧
    (((Transaction.commit ⟨false, []⟩ (.ok ())).2.commit (.ok ())).1
        = .error (.runtimeError "Transaction already committed")) :=
  c10_flag_merges_committed_aborted ⟨false, []⟩ (.error "e") (.ok ()) (.ok ())
    rfl

/-! ## Claims about ConnectionPool and Database -/

/-- Claim C2: the code pre-increments `_currentConnections` and then
constructs the new `Database`; when construction throws, the increment
is never rolled back.  At the failing input (empty pool, live count 0,
capacity 1, failing construction) the `ConnectionError` propagates and
the live counter is left at 1 — contradicting both the claim and the
counter's own documented purpose of tracking live connections. -/
theorem c2_construction_failure_leaks_live_count :
    ((ConnectionPool.get_connection ⟨[], 1, 0⟩ (.error "connection refused")).1
        = .error (ConnectionError "connection refused")) ∧
    ((ConnectionPool.get_connection ⟨[], 1, 0⟩
        (.error "connection refused")).2).currentConnections = 1 := by
  decide

/-- Claim C9: on an open connection, the auto-commit wrappers
`Database::exec`, `exec_params` and `exec_prepared` begin a transaction,
execute the statement once and commit, returning the result; when the
statement fails, the ephemeral transaction is aborted during unwinding
and the original wrapped error — kind and message — propagates
unmasked, whatever the backend rollback does (`ba` is arbitrary) and
whatever the commit would have answered (`bc` is arbitrary). -/
theorem c9_autocommit_wrappers (sql name m : String) (res : ResultData)
    (bc ba : Except String Unit) :
    (Database.exec ⟨true⟩ sql (.ok res) (.ok ()) ba
        = (.ok res, [BCall.execB sql, BCall.commitW])) ∧
    (Database.exec ⟨true⟩ sql (.sqlError m) bc ba
        = (.error (QueryError m), [BCall.execB sql, BCall.abortW])) ∧
    (Database.exec ⟨true⟩ sql (.otherError m) bc ba
        = (.error (DatabaseError m), [BCall.execB sql, BCall.abortW])) ∧
    (Database.exec_params ⟨true⟩ sql (.ok res) (.ok ()) ba
        = (.ok res, [BCall.execParamsB sql, BCall.commitW])) ∧
    (Database.exec_params ⟨true⟩ sql (.sqlError m) bc ba
        = (.error (QueryError m), [BCall.execParamsB sql, BCall.abortW])) ∧
    (Database.exec_params ⟨true⟩ sql (.otherError m) bc ba
        = (.error (DatabaseError m), [BCall.execParamsB sql, BCall.abortW])) ∧
    (Database.exec_prepared ⟨true⟩ name (.ok res) (.ok ()) ba
        = (.ok res, [BCall.execPreparedB name, BCall.commitW])) ∧
    (Database.exec_prepared ⟨true⟩ name (.sqlError m) bc ba
        = (.error (QueryError m), [BCall.execPreparedB name, BCall.abortW])) ∧
    (Database.exec_prepared ⟨true⟩ name (.otherError m) bc ba
        = (.error (DatabaseError m), [BCall.execPreparedB name, BCall.abortW])) := by
  unfold Database.exec Database.exec_params Database.exec_prepared
    Database.begin_transaction Transaction.mkFresh Transaction.exec
    Transaction.exec_params Transaction.exec_prepared Transaction.commit
    Transaction.destruct mapExecOutcome
  exact ⟨rfl, rfl, rfl, rfl, rfl, rfl, rfl, rfl, rfl⟩

/-- One `get_connection` step preserves the pool invariant, the lease
count adjusted by whether the caller received a connection. -/
theorem get_connection_preserves_inv {N : Nat} (hN : N < SIZE_T_MOD)
    {s : ConnectionPool} {leases : Nat} (c : Except String Database)
    (hInv : PoolInv N s leases) :
    PoolInv N (s.get_connection c).2
      (leases + leaseDelta (s.get_connection c).1) := by
  obtain ⟨hmax, hsum, hcap⟩ := hInv
  unfold ConnectionPool.get_connection
  cases hLast : s.pool.getLast? with
  | some d =>
    have hlen : 1 ≤ s.pool.length := by
      cases hp : s.pool with
      | nil => rw [hp] at hLast; simp at hLast
      | cons x xs => simp [hp]
    refine ⟨hmax, ?_, hcap⟩
    show s.pool.dropLast.length + (leases + 1) ≤ s.currentConnections
    rw [List.length_dropLast]
    omega
  | none =>
    by_cases hc : s.currentConnections < s.maxConnections
    · have hinc : add1Wrap s.currentConnections = s.currentConnections + 1 :=
        add1Wrap_of_lt (by omega)
      rw [if_pos hc]
      cases c with
      | ok db =>
        refine ⟨hmax, ?_, ?_⟩
        · show s.pool.length + (leases + 1) ≤ add1Wrap s.currentConnections
          rw [hinc]; omega
        · show add1Wrap s.currentConnections ≤ N
          rw [hinc]; omega
      | error m =>
        refine ⟨hmax, ?_, ?_⟩
        · show s.pool.length + (leases + 0) ≤ add1Wrap s.currentConnections
          rw [hinc]; omega
        · show add1Wrap s.currentConnections ≤ N
          rw [hinc]; omega
    · rw [if_neg hc]
      refine ⟨hmax, ?_, hcap⟩
      show s.pool.length + (leases + 0) ≤ s.currentConnections
      omega

/-- One `return_connection` of an outstanding lease preserves the pool
invariant. -/
theorem return_connection_preserves_inv {N : Nat} (hN : N < SIZE_T_MOD)
    {s : ConnectionPool} {leases : Nat} (conn : Option Database)
    (hInv : PoolInv N s leases) (hl : 1 ≤ leases) :
    PoolInv N (s.return_connection conn) (leases - 1) := by
  obtain ⟨hmax, hsum, hcap⟩ := hInv
  have hcur : 1 ≤ s.currentConnections := by omega
  have hdec : sub1Wrap s.currentConnections = s.currentConnections - 1 :=
    sub1Wrap_of_pos hcur (by omega)
  cases conn with
  | none =>
    simp only [ConnectionPool.return_connection]
    refine ⟨hmax, ?_, ?_⟩
    · show s.pool.length + (leases - 1) ≤ sub1Wrap s.currentConnections
      rw [hdec]; omega
    · show sub1Wrap s.currentConnections ≤ N
      rw [hdec]; omega
  | some d =>
    simp only [ConnectionPool.return_connection]
    cases hdo : d.is_open with
    | true =>
      rw [if_neg (by simp)]
      by_cases hroom : s.pool.length < s.maxConnections
      · rw [if_pos hroom]
        refine ⟨hmax, ?_, hcap⟩
        show (s.pool ++ [d]).length + (leases - 1) ≤ s.currentConnections
        rw [List.length_append]
        simp only [List.length_cons, List.length_nil]
        omega
      · rw [if_neg hroom]
        refine ⟨hmax, ?_, ?_⟩
        · show s.pool.length + (leases - 1) ≤ sub1Wrap s.currentConnections
          rw [hdec]; omega
        · show sub1Wrap s.currentConnections ≤ N
          rw [hdec]; omega
    | false =>
      rw [if_pos (by simp)]
      refine ⟨hmax, ?A, ?B⟩
      case A =>
        show s.pool.length + (leases - 1) ≤ sub1Wrap s.currentConnections
        rw [hdec]; omega
      case B =>
        show sub1Wrap s.currentConnections ≤ N
        rw [hdec]; omega

/-- Every well-formed run of pool operations preserves the invariant. -/
theorem runPool_preserves_inv {N : Nat} (hN : N < SIZE_T_MOD)
    (ops : List PoolOp) :
    ∀ (s : ConnectionPool) (leases : Nat) (s' : ConnectionPool)
      (leases' : Nat), PoolInv N s leases →
      runPool s leases ops = some (s', leases') → PoolInv N s' leases' := by
  induction ops with
  | nil =>
    intro s leases s' leases' hInv hRun
    unfold runPool at hRun
    cases hRun
    exact hInv
  | cons op ops ih =>
    intro s leases s' leases' hInv hRun
    cases op with
    | get c =>
      unfold runPool at hRun
      exact ih _ _ _ _ (get_connection_preserves_inv hN c hInv) hRun
    | ret conn =>
      unfold runPool at hRun
      by_cases hz : leases = 0
      · rw [if_pos hz] at hRun
        cases hRun
      · rw [if_neg hz] at hRun
        exact ih _ _ _ _
          (return_connection_preserves_inv hN conn hInv (by omega)) hRun

/-- Claim C5: along every well-formed sequence of `get_connection` and
`return_connection` operations (each return hands back an outstanding
lease), a pool of capacity `N` keeps the live counter within `[0, N]`
and the idle store's size within `N`; and whenever the idle store is
empty with the live counter at `N`, `get_connection` answers with the
immediate null signal, constructing nothing. -/
theorem c5_pool_bounds (N : Nat) (ops : List PoolOp) (s : ConnectionPool)
    (leases : Nat) (hN : N < SIZE_T_MOD)
    (hRun : runPool (ConnectionPool.mkFresh N) 0 ops = some (s, leases)) :
    s.currentConnections ≤ N ∧ s.pool.length ≤ N ∧
      (s.pool = [] → s.currentConnections = N →
        ∀ c, (s.get_connection c).1 = .ok none) := by
  have hInv : PoolInv N s leases :=
    runPool_preserves_inv hN ops (ConnectionPool.mkFresh N) 0 s leases
      ⟨rfl, by simp [ConnectionPool.mkFresh], by simp [ConnectionPool.mkFresh]⟩
      hRun
  obtain ⟨hmax, hsum, hcap⟩ := hInv
  refine ⟨hcap, by omega, ?_⟩
  intro hpool hfull c
  unfold ConnectionPool.get_connection
  rw [hpool]
  simp [hfull, hmax]

/-- Claim C5 witness: capacity 2, three successful lease attempts — the
third finds the pool exhausted and the final state keeps the bounds. -/
theorem c5_witness :
    ((⟨[], 2, 2⟩ : ConnectionPool).currentConnections ≤ 2 ∧
      (⟨[], 2, 2⟩ : ConnectionPool).pool.length ≤ 2) ∧
    ((⟨[], 2, 2⟩ : ConnectionPool).get_connection (.ok ⟨true⟩)).1 = .ok none :=
  ⟨⟨(c5_pool_bounds 2
      [PoolOp.get (.ok ⟨true⟩), PoolOp.get (.ok ⟨true⟩),
        PoolOp.get (.ok ⟨true⟩)] ⟨[], 2, 2⟩ 2 (by decide) (by decide)).1,
    (c5_pool_bounds 2
      [PoolOp.get (.ok ⟨true⟩), PoolOp.get (.ok ⟨true⟩),
        PoolOp.get (.ok ⟨true⟩)] ⟨[], 2, 2⟩ 2 (by decide) (by decide)).2.1⟩,
   (c5_pool_bounds 2
      [PoolOp.get (.ok ⟨true⟩), PoolOp.get (.ok ⟨true⟩),
        PoolOp.get (.ok ⟨true⟩)] ⟨[], 2, 2⟩ 2 (by decide) (by decide)).2.2
      rfl rfl (.ok ⟨true⟩)⟩

/-- Reduction of `return_connection` on a null connection: drop and
decrement. -/
theorem return_connection_none_eq (s : ConnectionPool) :
    s.return_connection none
      = { s with currentConnections := sub1Wrap s.currentConnections } := rfl

/-- Reduction of `return_connection` on a present but not-open
connection: drop and decrement. -/
theorem return_connection_dead_eq (s : ConnectionPool) (c : Database)
    (h : c.is_open = false) :
    s.return_connection (some c)
      = { s with currentConnections := sub1Wrap s.currentConnections } := by
  have hred : s.return_connection (some c)
      = if !c.is_open then
          { s with currentConnections := sub1Wrap s.currentConnections }
        else if s.pool.length < s.maxConnections then
          { s with pool := s.pool ++ [c] }
        else
          { s with currentConnections := sub1Wrap s.currentConnections } := rfl
  rw [hred, h]
  simp

/-- Claim C6: returning an absent (`nullptr`) or not-open connection
leaves the idle store untouched — the connection is never re-pooled —
and decrements the live counter (the `size_t` wrapping decrement, which
is the ordinary decrement whenever the counter is a positive in-range
value). -/
theorem c6_dead_return_decrements_and_never_pools (s : ConnectionPool)
    (conn : Option Database)
    (h : conn = none ∨ ∃ c, conn = some c ∧ c.is_open = false) :
    (s.return_connection conn).pool = s.pool ∧
    (s.return_connection conn).currentConnections
        = sub1Wrap s.currentConnections ∧
    (0 < s.currentConnections → s.currentConnections < SIZE_T_MOD →
      (s.return_connection conn).currentConnections
        = s.currentConnections - 1) := by
  have hgoal : (s.return_connection conn).pool = s.pool ∧
      (s.return_connection conn).currentConnections
        = sub1Wrap s.currentConnections := by
    cases h with
    | inl hn =>
      subst hn
      rw [return_connection_none_eq]
      exact ⟨rfl, rfl⟩
    | inr hc =>
      obtain ⟨c, hconn, hopen⟩ := hc
      subst hconn
      rw [return_connection_dead_eq s c hopen]
      exact ⟨rfl, rfl⟩
  refine ⟨hgoal.1, hgoal.2, ?_⟩
  intro hpos hlt
  rw [hgoal.2, sub1Wrap_of_pos hpos hlt]

/-- Claim C6 witness: returning `nullptr` to a pool with two live
connections drops the counter to one and leaves the idle store alone. -/
theorem c6_witness :
    ((⟨[⟨true⟩], 3, 2⟩ : ConnectionPool).return_connection none).pool
        = [⟨true⟩] ∧
    ((⟨[⟨true⟩], 3, 2⟩ : ConnectionPool).return_connection none).currentConnections
        = 2 - 1 :=
  ⟨(c6_dead_return_decrements_and_never_pools ⟨[⟨true⟩], 3, 2⟩ none
      (Or.inl rfl)).1,
   (c6_dead_return_decrements_and_never_pools ⟨[⟨true⟩], 3, 2⟩ none
      (Or.inl rfl)).2.2 (by decide) (by decide)⟩

end PgWrapper
